import Mathlib

/-!
Shallow embedding of `src/index.ts` of the tfjs-converter entry-point module.

The module is a pure router: it classifies a model locator (URL string or
opaque IO-handler) plus options, and forwards to exactly one backend loader.
We model each backend invocation as a constructor of `BackendCall`, carrying
exactly the arguments the source passes; transport options (`RequestInit`)
and progress callbacks are opaque to the router, so they are modelled as
opaque tokens (`Option Nat`) that must be forwarded verbatim.

TypeScript `null`/`undefined` are modelled as `Option.none`; JS string
truthiness (`if (modelUrl && ...)`) is non-null and non-empty.
-/

namespace TfjsConverter

/-- JS `s.lastIndexOf(c)` over the character list of `s`: the index of the
last occurrence of `c`, or `-1` when `c` does not occur. -/
def jsLastIndexOf : List Char → Char → Int
  | [], _ => -1
  | a :: rest, c =>
    let r := jsLastIndexOf rest c
    if 0 ≤ r then r + 1
    else if a = c then 0
    else -1

/-- JS `s.substr(0, len)`: the first `len` characters of `s`; a negative
`len` is treated as `0` (yielding the empty string), and a `len` larger than
the length yields all of `s`. -/
def jsSubstr0 (s : String) (len : Int) : String :=
  ⟨s.data.take len.toNat⟩

/-- JS `s.endsWith(suffixStr)`, as suffix test on the character lists. -/
def jsEndsWith (s suffixStr : String) : Bool :=
  suffixStr.data.isSuffixOf s.data

/-- Modelled from the spec: `DEFAULT_MANIFEST_NAME` is imported by
`src/index.ts` from `./executor/frozen_model`, which is outside the provided
sources; the spec fixes the conventional manifest filename to
`weights_manifest.json` (spec section 4.2 and testable properties 2 and 6). -/
def DEFAULT_MANIFEST_NAME : String := "weights_manifest.json"

/-- `getWeightsManifestUrl(modelUrl)` from `src/index.ts` lines 77-84:
`let weightsManifestUrl; if (modelUrl != null) { const path = modelUrl.substr(0,
modelUrl.lastIndexOf('/')); weightsManifestUrl = path + '/' +
DEFAULT_MANIFEST_NAME; } return weightsManifestUrl;` — for a null input the
local stays `undefined` (`none`). -/
def getWeightsManifestUrl (modelUrl : Option String) : Option String :=
  match modelUrl with
  | none => none
  | some u => some (jsSubstr0 u (jsLastIndexOf u.data '/') ++ "/" ++ DEFAULT_MANIFEST_NAME)

/-- The locator accepted by `loadGraphModel`: a URL string or an opaque
`io.IOHandler`. The handler is opaque to the router, so it is an abstract id. -/
inductive ModelSource where
  | url (s : String)
  | handler (id : Nat)
deriving DecidableEq

/-- `io.LoadOptions` as used by the router: `fromTFHub` (absent = falsy),
`requestInit` and `onProgress` (opaque, forwarded verbatim). -/
structure LoadOptions where
  fromTFHub : Bool
  requestInit : Option Nat
  onProgress : Option Nat
deriving DecidableEq

/-- The empty options object `\x7b\x7d` used for the defaulted parameter. -/
def emptyLoadOptions : LoadOptions := ⟨false, none, none⟩

/-- A single backend invocation: which backend loader the router called and
with which arguments. Constructors are named after the imported loader
functions in `src/index.ts`. `loadFrozenModelJSON` is the one JSON loader the
source imports from `./executor/frozen_model_json`; it serves both as the
legacy JSON backend (from `loadFrozenModel`) and as the modern JSON/handler
backend (default path of `loadGraphModel`). -/
inductive BackendCall where
  | loadTfHubModuleJSON (modelUrl : ModelSource) (requestInit onProgress : Option Nat)
  | loadFrozenModelPB (modelUrl weightsManifestUrl : Option String)
      (requestInit onProgress : Option Nat)
  | loadFrozenModelJSON (modelUrl : ModelSource) (requestInit onProgress : Option Nat)
deriving DecidableEq

/-- `loadFrozenModel(modelUrl, weightsManifestUrl?, requestOption?, onProgress?)`
from `src/index.ts` lines 55-75. The source's sequential tests
`if (modelUrl && modelUrl.endsWith('.json'))` and
`if (modelUrl != null && weightsManifestUrl == null)` are rendered as a match
on the nullability of `modelUrl`: for a non-null `modelUrl` the second test
reduces to `weightsManifestUrl == null`, and for a null one both tests are
false, so `weightsManifestUrl` passes through unchanged. The deprecation
warning is an advisory side effect with no influence on routing and is not
modelled. -/
def loadFrozenModel (modelUrl weightsManifestUrl : Option String)
    (requestOption onProgress : Option Nat) : BackendCall :=
  match modelUrl with
  | some s =>
    if !s.data.isEmpty && jsEndsWith s ".json" then
      .loadFrozenModelJSON (.url s) requestOption onProgress
    else
      let w := if weightsManifestUrl.isNone then getWeightsManifestUrl (some s)
               else weightsManifestUrl
      .loadFrozenModelPB (some s) w requestOption onProgress
  | none => .loadFrozenModelPB none weightsManifestUrl requestOption onProgress

/-- The message of the error thrown by `loadGraphModel` on a null locator. -/
def errNullModelUrl : String :=
  "modelUrl in loadGraphModel() cannot be null. Please provide a url or an IOHandler that loads the model"

/-- `loadGraphModel(modelUrl, options = \x7b\x7d)` from `src/index.ts` lines
115-145. A null `modelUrl` throws synchronously (`Except.error`); a null
`options` is replaced by the empty object; then first match wins among the
TF-Hub branch (`options.fromTFHub` truthy), the backwards-compatibility `.pb`
branch (`util.isString(modelUrl) && modelUrl.endsWith('.pb')`, rendered as the
match on the `url` constructor), and the default JSON/handler branch. -/
def loadGraphModel (modelUrl : Option ModelSource) (options : Option LoadOptions) :
    Except String BackendCall :=
  match modelUrl with
  | none => .error errNullModelUrl
  | some m =>
    let opts := options.getD emptyLoadOptions
    if opts.fromTFHub then
      .ok (.loadTfHubModuleJSON m opts.requestInit opts.onProgress)
    else
      match m with
      | .url s =>
        if jsEndsWith s ".pb" then
          .ok (.loadFrozenModelPB (some s) (getWeightsManifestUrl (some s))
                opts.requestInit opts.onProgress)
        else
          .ok (.loadFrozenModelJSON m opts.requestInit opts.onProgress)
      | .handler _ => .ok (.loadFrozenModelJSON m opts.requestInit opts.onProgress)

/-! ### Helper lemmas about the manifest URL synthesizer -/

/-- When `c` does not occur in `l`, JS `lastIndexOf` yields `-1`. -/
lemma jsLastIndexOf_of_not_mem (l : List Char) (c : Char) (h : c ∉ l) :
    jsLastIndexOf l c = -1 := by
  induction l with
  | nil => rfl
  | cons a rest ih =>
    simp only [List.mem_cons, not_or] at h
    simp [jsLastIndexOf, ih h.2, Ne.symm h.1]

/-- JS `lastIndexOf` finds the last occurrence: on `d ++ c :: t` with `c`
absent from `t`, the answer is `d.length`. -/
lemma jsLastIndexOf_append_cons (d t : List Char) (c : Char) (h : c ∉ t) :
    jsLastIndexOf (d ++ c :: t) c = (d.length : Int) := by
  induction d with
  | nil => simp [jsLastIndexOf, jsLastIndexOf_of_not_mem t c h]
  | cons a d ih =>
    show (if 0 ≤ jsLastIndexOf (d ++ c :: t) c then jsLastIndexOf (d ++ c :: t) c + 1
          else if a = c then 0 else -1) = ((a :: d).length : Int)
    rw [ih, if_pos (Int.natCast_nonneg _)]
    simp only [List.length_cons]
    push_cast
    ring

/-- Rebuilding a string from its character data is the identity. -/
lemma string_mk_data (s : String) : String.mk s.data = s := rfl

/-- The character data of `d ++ "/" ++ t` splits as `d.data ++ '/' :: t.data`. -/
lemma data_append_slash (d t : String) :
    (d ++ "/" ++ t).data = d.data ++ '/' :: t.data := by
  simp [String.data_append]

/-- On a base of the form `d ++ "/" ++ t` with no slash in `t` (so that the
added slash is the last one), the synthesizer keeps `d` and replaces the final
component `t` by the conventional manifest filename. -/
lemma getWeightsManifestUrl_split (d t : String) (h : '/' ∉ t.data) :
    getWeightsManifestUrl (some (d ++ "/" ++ t))
      = some (d ++ "/" ++ DEFAULT_MANIFEST_NAME) := by
  have hidx : jsLastIndexOf (d ++ "/" ++ t).data '/' = (d.data.length : Int) := by
    rw [data_append_slash]
    exact jsLastIndexOf_append_cons d.data t.data '/' h
  have hsub : jsSubstr0 (d ++ "/" ++ t) (jsLastIndexOf (d ++ "/" ++ t).data '/') = d := by
    rw [hidx]
    unfold jsSubstr0
    rw [data_append_slash, Int.toNat_natCast]
    rw [show d.data.length = d.data.length from rfl, List.take_left]
  simp only [getWeightsManifestUrl, hsub]

/-- On a base with no slash at all, the synthesizer produces just
`"/" ++ DEFAULT_MANIFEST_NAME` (the directory portion is empty). -/
lemma getWeightsManifestUrl_no_slash (s : String) (h : '/' ∉ s.data) :
    getWeightsManifestUrl (some s) = some ("/" ++ DEFAULT_MANIFEST_NAME) := by
  have hidx : jsLastIndexOf s.data '/' = -1 := jsLastIndexOf_of_not_mem s.data '/' h
  have hsub : jsSubstr0 s (jsLastIndexOf s.data '/') = "" := by
    rw [hidx]; rfl
  simp only [getWeightsManifestUrl, hsub]
  rfl

/-- A non-empty string has non-empty character data. -/
lemma data_isEmpty_false_of_ne (s : String) (h : s ≠ "") : s.data.isEmpty = false := by
  cases s with
  | mk l =>
    cases l with
    | nil => exact absurd rfl h
    | cons a l => rfl

/-! ### Claim theorems -/

/-- C1: calling `loadGraphModel` with a null locator raises the
Invalid-Argument error (whose message names the violated parameter) before any
backend loader is invoked: for every options value the result is the error,
and it is never an `ok` carrying a backend call. -/
theorem C1_null_locator_invalid_argument :
    (∀ options : Option LoadOptions, loadGraphModel none options = .error errNullModelUrl)
  ∧ (∀ (options : Option LoadOptions) (b : BackendCall), loadGraphModel none options ≠ .ok b) := by
  refine ⟨fun _ => rfl, fun options b h => ?_⟩
  rw [show loadGraphModel none options = .error errNullModelUrl from rfl] at h
  exact Except.noConfusion h

/-- C2: for every non-null locator and options with `fromTFHub` truthy,
`loadGraphModel` invokes the TF-Hub backend with the locator and the options'
request options and progress callback, regardless of the locator's suffix
(the locator is universally quantified, so `.pb` and `.json` URLs included),
and invokes no other backend. -/
theorem C2_tfhub_backend (m : ModelSource) (req prog : Option Nat) :
    loadGraphModel (some m) (some ⟨true, req, prog⟩)
      = .ok (.loadTfHubModuleJSON m req prog) := rfl

/-- C3: for every string ending in `.pb`, with `fromTFHub` falsy,
`loadGraphModel` invokes the binary backend with the string and a manifest URL
equal to the directory portion (everything before the final slash) plus
`"/weights_manifest.json"`; when the string has no slash the directory portion
is empty. -/
theorem C3_pb_binary_backend :
    (∀ (d t : String) (req prog : Option Nat), '/' ∉ t.data →
        jsEndsWith (d ++ "/" ++ t) ".pb" = true →
        loadGraphModel (some (.url (d ++ "/" ++ t))) (some ⟨false, req, prog⟩)
          = .ok (.loadFrozenModelPB (some (d ++ "/" ++ t))
              (some (d ++ "/" ++ "weights_manifest.json")) req prog))
  ∧ (∀ (s : String) (req prog : Option Nat), '/' ∉ s.data →
        jsEndsWith s ".pb" = true →
        loadGraphModel (some (.url s)) (some ⟨false, req, prog⟩)
          = .ok (.loadFrozenModelPB (some s)
              (some ("/" ++ "weights_manifest.json")) req prog)) := by
  constructor
  · intro d t req prog ht hpb
    simp [loadGraphModel, hpb, getWeightsManifestUrl_split d t ht, DEFAULT_MANIFEST_NAME]
  · intro s req prog hs hpb
    simp [loadGraphModel, hpb, getWeightsManifestUrl_no_slash s hs, DEFAULT_MANIFEST_NAME]

/-- Witness for C3 at `"https://host/dir/model.pb"` (with a slash) and
`"model.pb"` (without). -/
theorem C3_pb_binary_backend_witness :
    loadGraphModel (some (.url ("https://host/dir" ++ "/" ++ "model.pb")))
        (some ⟨false, some 1, none⟩)
      = .ok (.loadFrozenModelPB (some ("https://host/dir" ++ "/" ++ "model.pb"))
          (some ("https://host/dir" ++ "/" ++ "weights_manifest.json")) (some 1) none)
  ∧ loadGraphModel (some (.url "model.pb")) (some ⟨false, none, none⟩)
      = .ok (.loadFrozenModelPB (some "model.pb")
          (some ("/" ++ "weights_manifest.json")) none none) :=
  ⟨C3_pb_binary_backend.1 "https://host/dir" "model.pb" (some 1) none (by decide) (by decide),
   C3_pb_binary_backend.2 "model.pb" none none (by decide) (by decide)⟩

/-- C4: for every string ending neither in `.json` nor `.pb`, with
`fromTFHub` falsy, `loadGraphModel` invokes the modern JSON/handler backend
with the string unchanged together with the request options and progress
callback, and invokes no other backend. -/
theorem C4_default_modern_json_backend (s : String) (req prog : Option Nat)
    (hj : jsEndsWith s ".json" = false) (hp : jsEndsWith s ".pb" = false) :
    loadGraphModel (some (.url s)) (some ⟨false, req, prog⟩)
      = .ok (.loadFrozenModelJSON (.url s) req prog) := by
  simp [loadGraphModel, hp]

/-- Witness for C4 at the locator `"model.bin"`. -/
theorem C4_default_modern_json_backend_witness :
    loadGraphModel (some (.url "model.bin")) (some ⟨false, some 2, some 3⟩)
      = .ok (.loadFrozenModelJSON (.url "model.bin") (some 2) (some 3)) :=
  C4_default_modern_json_backend "model.bin" (some 2) (some 3) (by decide) (by decide)

/-- C5: for every non-empty string ending in `.json`, the legacy entry point
`loadFrozenModel` routes to the JSON backend with the locator, request options
and progress callback, whatever the `weightsManifestUrl` argument is, and
never to the binary backend. -/
theorem C5_legacy_json_backend (s : String) (w : Option String) (req prog : Option Nat)
    (hne : s ≠ "") (hj : jsEndsWith s ".json" = true) :
    loadFrozenModel (some s) w req prog = .loadFrozenModelJSON (.url s) req prog := by
  simp [loadFrozenModel, hj, data_isEmpty_false_of_ne s hne]

/-- Witness for C5 at `"model.json"`, once with an explicit manifest URL
argument and once without. -/
theorem C5_legacy_json_backend_witness :
    loadFrozenModel (some "model.json") (some "explicit.json") (some 4) none
      = .loadFrozenModelJSON (.url "model.json") (some 4) none
  ∧ loadFrozenModel (some "model.json") none none none
      = .loadFrozenModelJSON (.url "model.json") none none :=
  ⟨C5_legacy_json_backend "model.json" (some "explicit.json") (some 4) none
      (by decide) (by decide),
   C5_legacy_json_backend "model.json" none none none (by decide) (by decide)⟩

/-- C6: for every non-null string locator not ending in `.json`, with the
manifest URL argument omitted, the legacy entry point synthesizes the
manifest URL via the synthesizer applied to the locator and invokes the
binary backend with locator, synthesized manifest URL, request options and
progress callback. -/
theorem C6_legacy_synthesis (s : String) (req prog : Option Nat)
    (hj : jsEndsWith s ".json" = false) :
    loadFrozenModel (some s) none req prog
      = .loadFrozenModelPB (some s) (getWeightsManifestUrl (some s)) req prog := by
  simp [loadFrozenModel, hj]

/-- Witness for C6 at `"model.pb"`. -/
theorem C6_legacy_synthesis_witness :
    loadFrozenModel (some "model.pb") none (some 5) none
      = .loadFrozenModelPB (some "model.pb") (getWeightsManifestUrl (some "model.pb"))
          (some 5) none :=
  C6_legacy_synthesis "model.pb" (some 5) none (by decide)

/-- C7: the synthesizer returns `none` on a null base without error; on a
non-null base it returns the portion before the final slash concatenated with
a slash and the manifest filename constant; on a base with no slash the
directory portion is empty and the result is the slash followed by the
filename constant. -/
theorem C7_synthesizer_contract :
    getWeightsManifestUrl none = none
  ∧ (∀ d t : String, '/' ∉ t.data →
      getWeightsManifestUrl (some (d ++ "/" ++ t))
        = some (d ++ "/" ++ DEFAULT_MANIFEST_NAME))
  ∧ (∀ s : String, '/' ∉ s.data →
      getWeightsManifestUrl (some s) = some ("/" ++ DEFAULT_MANIFEST_NAME)) :=
  ⟨rfl, getWeightsManifestUrl_split, getWeightsManifestUrl_no_slash⟩

/-- Witness for C7 at a base with a slash and at one without. -/
theorem C7_synthesizer_contract_witness :
    getWeightsManifestUrl (some ("https://host/dir" ++ "/" ++ "model.pb"))
      = some ("https://host/dir" ++ "/" ++ DEFAULT_MANIFEST_NAME)
  ∧ getWeightsManifestUrl (some "model.pb") = some ("/" ++ DEFAULT_MANIFEST_NAME) :=
  ⟨C7_synthesizer_contract.2.1 "https://host/dir" "model.pb" (by decide),
   C7_synthesizer_contract.2.2 "model.pb" (by decide)⟩

/-- C8: the synthesizer is deterministic (same input, same output — it is a
pure function of its argument) and idempotent: applying it to its own output
returns that output unchanged. -/
theorem C8_synthesizer_deterministic_idempotent :
    (∀ x : Option String, getWeightsManifestUrl x = getWeightsManifestUrl x)
  ∧ (∀ x : Option String,
      getWeightsManifestUrl (getWeightsManifestUrl x) = getWeightsManifestUrl x) := by
  refine ⟨fun _ => rfl, fun x => ?_⟩
  cases x with
  | none => rfl
  | some u =>
    have h : ('/' : Char) ∉ DEFAULT_MANIFEST_NAME.data := by decide
    calc getWeightsManifestUrl (getWeightsManifestUrl (some u))
        = getWeightsManifestUrl
            (some (jsSubstr0 u (jsLastIndexOf u.data '/') ++ "/" ++ DEFAULT_MANIFEST_NAME)) := rfl
      _ = some (jsSubstr0 u (jsLastIndexOf u.data '/') ++ "/" ++ DEFAULT_MANIFEST_NAME) :=
          getWeightsManifestUrl_split _ _ h
      _ = getWeightsManifestUrl (some u) := rfl

/-- C9: the legacy entry point tolerates a null locator: no error is raised
(the router is a total function there) and the binary backend receives a
manifest URL that coincides with the synthesizer's output on the null base,
namely none/undefined. -/
theorem C9_legacy_null_locator_tolerated (req prog : Option Nat) :
    loadFrozenModel none none req prog
      = .loadFrozenModelPB none (getWeightsManifestUrl none) req prog
  ∧ getWeightsManifestUrl none = none :=
  ⟨rfl, rfl⟩

/-- C10: the empty-string locator passes the null-locator check of
`loadGraphModel` (no Invalid-Argument error) and, with `fromTFHub` falsy, is
routed to the modern JSON/handler backend unchanged. -/
theorem C10_empty_string_locator (req prog : Option Nat) :
    loadGraphModel (some (.url "")) (some ⟨false, req, prog⟩)
      = .ok (.loadFrozenModelJSON (.url "") req prog) := rfl

end TfjsConverter
